import Mathlib

/-!
Shallow embedding of the goodfire-sdk playground scripts
(`playground.py` and `logging_config.py`) and proofs about the
properties their specification states.

Modelling conventions:
* The wall clock (`datetime.now()`) is passed in as an explicit `DateTime`
  argument; `strftime("%Y%m%d_%H%M%S")` is modelled character by character.
* File writes are modelled as an ordered trace of `FileWrite` events
  (path plus content), in the order the code performs them.
* Python dict truthiness (`if metadata:`) is modelled explicitly: `None`
  and the empty dict are falsy.
* The logging module state is the part the scripts touch: the root
  logger level and handler list, and the `goodfire` sub-logger level and
  handler list.
-/

namespace GoodfireSdk

/-- A wall-clock timestamp at second granularity, the part of
`datetime.now()` that `strftime("%Y%m%d_%H%M%S")` observes. -/
@[ext]
structure DateTime where
  year : Nat
  month : Nat
  day : Nat
  hour : Nat
  minute : Nat
  second : Nat
deriving DecidableEq, Repr

/-- Field ranges of a timestamp `datetime.now()` can actually produce
(year restricted to four digits, as in any realistic run). -/
def DateTime.valid (t : DateTime) : Prop :=
  1000 ≤ t.year ∧ t.year ≤ 9999 ∧ 1 ≤ t.month ∧ t.month ≤ 12 ∧
    1 ≤ t.day ∧ t.day ≤ 31 ∧ t.hour ≤ 23 ∧ t.minute ≤ 59 ∧ t.second ≤ 59

instance (t : DateTime) : Decidable t.valid := by
  unfold DateTime.valid; infer_instance

/-- The decimal digit character for `n % 10`. -/
def digitChar (n : Nat) : Char :=
  match n with
  | 0 => '0' | 1 => '1' | 2 => '2' | 3 => '3' | 4 => '4'
  | 5 => '5' | 6 => '6' | 7 => '7' | 8 => '8' | _ => '9'

/-- `n` written as exactly `w` decimal digits, zero padded (high digits
beyond `w` are dropped; all formatted fields below stay in range). -/
def padDigits : Nat → Nat → List Char
  | 0, _ => []
  | w + 1, n => digitChar (n / 10 ^ w % 10) :: padDigits w n

/-- Character sequence of `strftime("%Y%m%d_%H%M%S")`. -/
def strftimeChars (t : DateTime) : List Char :=
  padDigits 4 t.year ++ padDigits 2 t.month ++ padDigits 2 t.day ++
    ['_'] ++ padDigits 2 t.hour ++ padDigits 2 t.minute ++ padDigits 2 t.second

/-- `t.strftime("%Y%m%d_%H%M%S")` as a string. -/
def strftime (t : DateTime) : String :=
  ⟨strftimeChars t⟩

/-- JSON values, as produced by `json.dump`. Numbers are modelled as
rationals; the scripts only pass numbers through unchanged. -/
inductive Json where
  | str : String → Json
  | num : Rat → Json
  | arr : List Json → Json
  | obj : List (String × Json) → Json

/-- What a single `open(...,'w')` + write puts in the file. -/
inductive FileContent where
  | text : String → FileContent
  | json : Json → FileContent

/-- One file write performed by the scripts. -/
structure FileWrite where
  path : String
  content : FileContent

/-- A Python dict, as the metadata argument: an association list. -/
def Metadata := List (String × Json)

/-- Python truthiness of the `metadata` parameter: `None` and the empty
dict are falsy, a non-empty dict is truthy. -/
def pyTruthy (m : Option Metadata) : Bool :=
  match m with
  | none => false
  | some d => !d.isEmpty

/-- Path of the response text artifact `<dir>/<name>_<ts>.txt`. -/
def response_path (dir name ts : String) : String :=
  dir ++ "/" ++ (name ++ "_" ++ ts ++ ".txt")

/-- Path of the metadata artifact `<dir>/<name>_<ts>_metadata.json`. -/
def metadata_path (dir name ts : String) : String :=
  dir ++ "/" ++ (name ++ "_" ++ ts ++ "_metadata.json")

/-- Embedding of `playground.save_response`: computes one timestamp,
writes the response file, then writes the metadata file only when the
metadata argument is truthy.  Returns the trace of file writes in
program order together with the returned file path. -/
def save_response (output_dir example_name response : String) (now : DateTime)
    (metadata : Option Metadata) : List FileWrite × String :=
  let timestamp := strftime now
  let filename := example_name ++ "_" ++ timestamp ++ ".txt"
  let filepath := output_dir ++ "/" ++ filename
  let metaWrites : List FileWrite :=
    match metadata with
    | some d =>
      if d.isEmpty then []
      else [⟨output_dir ++ "/" ++ (example_name ++ "_" ++ timestamp ++ "_metadata.json"),
            FileContent.json (Json.obj d)⟩]
    | none => []
  (⟨filepath, FileContent.text response⟩ :: metaWrites, filepath)

/-- The streaming loop of `main`: `response = ""` then
`response += content` for each arriving fragment. -/
def accumulate (fragments : List String) : String :=
  fragments.foldl (fun acc c => acc ++ c) ""

/-- Numeric value of `logging.NOTSET`. -/
def NOTSET : Nat := 0

/-- Numeric value of `logging.DEBUG`. -/
def DEBUG : Nat := 10

/-- Numeric value of `logging.INFO`. -/
def INFO : Nat := 20

/-- Numeric value of `logging.WARNING`, the default root logger level. -/
def WARNING : Nat := 30

/-- A log sink attached to a logger: a `FileHandler` with its path, or a
console `StreamHandler`. -/
inductive Handler where
  | file : String → Handler
  | console : Handler
deriving DecidableEq

/-- The part of the `logging` module state that `logging_config.py`
reads or writes: level and handler list of the root logger and of the
named logger `goodfire`. -/
structure LoggingState where
  rootLevel : Nat
  rootHandlers : List Handler
  goodfireLevel : Nat
  goodfireHandlers : List Handler
deriving DecidableEq

/-- State of a freshly started Python process: no handlers anywhere,
root at its default WARNING level, `goodfire` at NOTSET. -/
def freshLogging : LoggingState :=
  ⟨WARNING, [], NOTSET, []⟩

/-- The log file path `logs/goodfire_<ts>.log`. -/
def log_file_path (t : DateTime) : String :=
  "logs/goodfire_" ++ strftime t ++ ".log"

/-- Embedding of `logging_config.setup_logging`: sets the root logger to
INFO, clears its handlers, adds a file handler for the timestamped log
file and then a console handler, and sets the `goodfire` logger level to
DEBUG.  It never touches the `goodfire` handler list.  Returns the new
state and the log file path. -/
def setup_logging (now : DateTime) (s : LoggingState) : LoggingState × String :=
  let timestamp := strftime now
  let log_file := "logs/goodfire_" ++ timestamp ++ ".log"
  ({ rootLevel := INFO,
     rootHandlers := [Handler.file log_file, Handler.console],
     goodfireLevel := DEBUG,
     goodfireHandlers := s.goodfireHandlers },
   log_file)

/-- Paths of the file sinks currently attached to the root logger. -/
def fileSinkPaths (s : LoggingState) : List String :=
  s.rootHandlers.filterMap (fun h =>
    match h with
    | Handler.file p => some p
    | Handler.console => none)

/-- Number of writes in a trace that target a given path. -/
def writesTo (ws : List FileWrite) (p : String) : Nat :=
  (ws.filter (fun w => w.path == p)).length

/-- A sample wall-clock time used to instantiate theorems. -/
def sampleTime : DateTime := ⟨2026, 10, 12, 9, 30, 0⟩

/-- A second sample time, one second after `sampleTime`. -/
def sampleTime2 : DateTime := ⟨2026, 10, 12, 9, 30, 1⟩

/-- Numeric value of a decimal digit character. -/
def digitVal (c : Char) : Nat :=
  c.toNat - 48

/-- An opaque feature object returned by the inspection call, carrying
the string `str(feature)` yields for it. -/
structure Feature where
  reprStr : String
deriving DecidableEq

/-- The JSON object built for one `(feature, activation)` pair in
`track_feature_activations`. -/
def feature_entry (p : Feature × Rat) : Json :=
  Json.obj [("feature", Json.str p.1.reprStr), ("activation", Json.num p.2)]

/-- Embedding of `playground.track_feature_activations`: the inspection
result is abstracted as `ctx_top`, the `context.top` method of the
context the client returned for this conversation and variant.  The
function asks for the top 10 pairs, writes them to
`<dir>/<name>_<ts>_features.json` as an object with a single
`top_features` key, and returns the pairs. -/
def track_feature_activations (ctx_top : Nat → List (Feature × Rat))
    (output_dir example_name : String) (now : DateTime) :
    FileWrite × List (Feature × Rat) :=
  let timestamp := strftime now
  let top_features := ctx_top 10
  let feature_file := output_dir ++ "/" ++
    (example_name ++ "_" ++ timestamp ++ "_features.json")
  (⟨feature_file,
    FileContent.json (Json.obj [("top_features",
      Json.arr (top_features.map feature_entry))])⟩,
   top_features)

/-- A concrete inspection result used to instantiate theorems: two
pairs, already in descending activation order. -/
def sampleTop : Nat → List (Feature × Rat) :=
  fun _ => [(⟨"F1"⟩, 2), (⟨"F2"⟩, 1)]

/-- Severity of a log record, as the scripts use them. -/
inductive LogLevel where
  | info : LogLevel
  | error : LogLevel
deriving DecidableEq

/-- One log record: severity, message, and whether the record carries a
full exception trace (`exc_info=True`). -/
structure LogEntry where
  level : LogLevel
  msg : String
  exc_info : Bool
deriving DecidableEq

/-- The body of the `try` block of `main`, abstracted over the outcome
of each example: examples run strictly in order, each logs an INFO line
and, on success, produces its artifact; the first failing example stops
the run with its exception message, and no later example runs. -/
def run_examples : List (String × Except String String) →
    List LogEntry × List String × Option String
  | [] => ([], [], none)
  | (name, res) :: rest =>
    match res with
    | Except.ok art =>
      let r := run_examples rest
      (⟨LogLevel.info, "Running " ++ name, false⟩ :: r.1, art :: r.2.1, r.2.2)
    | Except.error msg =>
      ([⟨LogLevel.info, "Running " ++ name, false⟩], [], some msg)

/-- Embedding of the `try`/`except` of `main`: on success an INFO
completion line is logged; on an exception `e` the handler logs
`"Error in playground: " ++ str(e)` at ERROR level with `exc_info=True`
and re-raises `e`. -/
def main_run (examples : List (String × Except String String)) :
    List LogEntry × List String × Except String Unit :=
  let r := run_examples examples
  match r.2.2 with
  | none =>
    (r.1 ++ [⟨LogLevel.info, "Playground completed successfully", false⟩],
     r.2.1, Except.ok ())
  | some msg =>
    (r.1 ++ [⟨LogLevel.error, "Error in playground: " ++ msg, true⟩],
     r.2.1, Except.error msg)

/-- Embedding of `os.getenv`. -/
def getenv (env : List (String × String)) (key : String) : Option String :=
  (env.find? (fun p => p.1 == key)).map Prod.snd

/-- The module-level credential check of `playground.py`:
`GOODFIRE_API_KEY = os.getenv(...)` followed by
`if not GOODFIRE_API_KEY: raise ValueError(...)`.  Python truthiness
makes both a missing and an empty value fail. -/
def module_check (env : List (String × String)) : Except String String :=
  match getenv env "GOODFIRE_API_KEY" with
  | none => Except.error "Please set GOODFIRE_API_KEY in your .env file"
  | some k =>
    if k = "" then Except.error "Please set GOODFIRE_API_KEY in your .env file"
    else Except.ok k

/-- Externally visible start-up actions of the script, in order. -/
inductive Event where
  | loggingInit : Event
  | clientConstruct : Event
deriving DecidableEq

/-- Start-up of `playground.py` run as a script: module-level code runs
first (environment load and credential check); only if it succeeds does
`main` run, which initializes logging and then constructs the client.
Returns the trace of start-up events and the process outcome. -/
def run_program (env : List (String × String)) :
    List Event × Except String Unit :=
  match module_check env with
  | Except.error e => ([], Except.error e)
  | Except.ok _ => ([Event.loggingInit, Event.clientConstruct], Except.ok ())

end GoodfireSdk

namespace GoodfireSdk

theorem foldl_append_data (a : String) (l : List String) :
    (l.foldl (fun acc c => acc ++ c) a).data = a.data ++ (l.map String.data).flatten := by
  induction l generalizing a with
  | nil => simp
  | cons f fs ih =>
    simp [List.foldl_cons, ih, String.data_append, List.append_assoc]

/-- C5: the accumulated response is the concatenation, character for
character, of the fragments in arrival order: each fragment appears
exactly once, none is lost, and the split into fragments is irrelevant. -/
theorem accumulate_eq_flatten (fragments : List String) :
    (accumulate fragments).data = (fragments.map String.data).flatten := by
  simp [accumulate, foldl_append_data]

theorem string_data_inj {a b : String} (h : a.data = b.data) : a = b := by
  cases a
  cases b
  exact congrArg String.mk h

theorem response_path_ne_metadata_path (dir name ts : String) :
    response_path dir name ts ≠ metadata_path dir name ts := by
  intro h
  have hlen := congrArg String.length h
  simp only [response_path, metadata_path, String.length_append,
    show (".txt").length = 4 from rfl,
    show ("_metadata.json").length = 14 from rfl] at hlen
  omega

/-- C1: in the write trace of `save_response`, every prefix that contains
the metadata file write also contains the response file write; the
metadata file is only ever written strictly after the response file. -/
theorem save_response_metadata_after_response (dir name resp : String)
    (t : DateTime) (md : Option Metadata) (n : Nat)
    (h : metadata_path dir name (strftime t) ∈
      (((save_response dir name resp t md).1.take n).map FileWrite.path)) :
    response_path dir name (strftime t) ∈
      (((save_response dir name resp t md).1.take n).map FileWrite.path) := by
  cases n with
  | zero => simp at h
  | succ m =>
    simp only [save_response, response_path, List.take_succ_cons, List.map_cons]
    exact List.mem_cons_self _ _

/-- Witness for C1 at a concrete call with non-empty metadata. -/
theorem save_response_metadata_after_response_witness :
    (metadata_path "output" "basic_chat" (strftime sampleTime) ∈
      (((save_response "output" "basic_chat" "hi" sampleTime
          (some [("model", Json.str "m")])).1.take 2).map FileWrite.path)) ∧
    (response_path "output" "basic_chat" (strftime sampleTime) ∈
      (((save_response "output" "basic_chat" "hi" sampleTime
          (some [("model", Json.str "m")])).1.take 2).map FileWrite.path)) :=
  ⟨by decide,
   save_response_metadata_after_response "output" "basic_chat" "hi" sampleTime
    (some [("model", Json.str "m")]) 2 (by decide)⟩

/-- C2 counterexample: a supplied but empty metadata dict is falsy in
Python, so `save_response` writes no metadata file even though a
metadata object was supplied. -/
theorem save_response_empty_metadata_counterexample :
    some ([] : Metadata) ≠ (none : Option Metadata) ∧
    writesTo (save_response "output" "basic_chat" "hello" sampleTime
        (some ([] : Metadata))).1
      (metadata_path "output" "basic_chat" (strftime sampleTime)) = 0 := by
  constructor
  · intro h
    cases h
  · decide

theorem save_response_writes (dir name resp : String) (t : DateTime)
    (md : Option Metadata) :
    (save_response dir name resp t md).1 =
      ⟨response_path dir name (strftime t), FileContent.text resp⟩ ::
        (match md with
         | some d =>
           if d.isEmpty then []
           else [⟨metadata_path dir name (strftime t),
                 FileContent.json (Json.obj d)⟩]
         | none => []) := rfl

/-- C2 amended: exactly one response file write always happens; the
metadata file is written exactly once when the metadata argument is
truthy (supplied and non-empty) and zero times otherwise. -/
theorem save_response_write_counts (dir name resp : String) (t : DateTime)
    (md : Option Metadata) :
    writesTo (save_response dir name resp t md).1
        (response_path dir name (strftime t)) = 1 ∧
    writesTo (save_response dir name resp t md).1
        (metadata_path dir name (strftime t)) =
      (if pyTruthy md then 1 else 0) := by
  have hne := response_path_ne_metadata_path dir name (strftime t)
  have hne2 : metadata_path dir name (strftime t) ≠
      response_path dir name (strftime t) := fun h => hne h.symm
  rw [save_response_writes]
  cases md with
  | none =>
    constructor
    · simp [writesTo]
    · simp [writesTo, pyTruthy, hne]
  | some d =>
    by_cases hd : d.isEmpty
    · constructor
      · simp [writesTo, hd]
      · simp [writesTo, pyTruthy, hd, hne]
    · constructor
      · simp [writesTo, hd, hne2]
      · simp [writesTo, pyTruthy, hd, hne]

/-- C10: the returned path is the response file
`<dir>/<name>_<ts>.txt`, and every write of the call targets either that
file or `<dir>/<stem>_metadata.json` for the same stem `<name>_<ts>`:
response and metadata names share the single timestamp computed at the
start of the call. -/
theorem save_response_shared_timestamp (dir name resp : String) (t : DateTime)
    (md : Option Metadata) :
    (save_response dir name resp t md).2
        = dir ++ "/" ++ ((name ++ "_" ++ strftime t) ++ ".txt") ∧
    ∀ w ∈ (save_response dir name resp t md).1,
      w.path = dir ++ "/" ++ ((name ++ "_" ++ strftime t) ++ ".txt") ∨
      w.path = dir ++ "/" ++ ((name ++ "_" ++ strftime t) ++ "_metadata.json") := by
  refine ⟨rfl, ?_⟩
  intro w hw
  cases md with
  | none =>
    simp only [save_response, List.mem_singleton] at hw
    subst hw
    exact Or.inl rfl
  | some d =>
    by_cases hd : d.isEmpty
    · simp only [save_response, hd, if_true, List.mem_singleton] at hw
      subst hw
      exact Or.inl rfl
    · simp only [save_response, hd, if_false, Bool.false_eq_true,
        List.mem_cons, List.mem_singleton, List.not_mem_nil, or_false] at hw
      rcases hw with hw | hw
      · subst hw
        exact Or.inl rfl
      · subst hw
        exact Or.inr rfl

theorem string_mid_cancel {pre suf a b : String}
    (h : pre ++ a ++ suf = pre ++ b ++ suf) : a = b := by
  have hd := congrArg String.data h
  simp only [String.data_append, List.append_assoc] at hd
  exact string_data_inj (List.append_cancel_right (List.append_cancel_left hd))

theorem log_file_path_inj {t u : DateTime}
    (h : log_file_path t = log_file_path u) : strftime t = strftime u :=
  string_mid_cancel h

/-- C3 counterexample: starting from a fresh process, `setup_logging`
leaves the `goodfire` sub-logger with zero handlers, so no sink at all
is installed on the sub-logger; only its level is set to DEBUG. -/
theorem setup_logging_no_goodfire_sink_counterexample :
    (setup_logging sampleTime freshLogging).1.goodfireHandlers = [] ∧
    (setup_logging sampleTime freshLogging).1.goodfireLevel = DEBUG :=
  ⟨rfl, rfl⟩

/-- C3 amended: every invocation of `setup_logging` installs exactly two
sinks on the root logger, a file handler for the returned path and a
console handler, sets the root logger level to INFO, sets the `goodfire`
sub-logger level to DEBUG, and installs no handler on the sub-logger
(its handler list is left untouched). -/
theorem setup_logging_effects (t : DateTime) (s : LoggingState) :
    (setup_logging t s).1.rootHandlers
        = [Handler.file (setup_logging t s).2, Handler.console] ∧
    (setup_logging t s).1.rootLevel = INFO ∧
    (setup_logging t s).1.goodfireLevel = DEBUG ∧
    (setup_logging t s).1.goodfireHandlers = s.goodfireHandlers ∧
    (setup_logging t s).2 = log_file_path t :=
  ⟨rfl, rfl, rfl, rfl, rfl⟩

/-- C4: after one call the root logger has exactly two handlers, after a
second call still exactly two (the first call's are cleared), the only
file sink left is the second call's log file, and the first call's log
file is no longer a sink whenever the two timestamps differ. -/
theorem setup_logging_twice (t1 t2 : DateTime) (s : LoggingState)
    (h : strftime t1 ≠ strftime t2) :
    (setup_logging t1 s).1.rootHandlers.length = 2 ∧
    (setup_logging t2 (setup_logging t1 s).1).1.rootHandlers.length = 2 ∧
    fileSinkPaths (setup_logging t2 (setup_logging t1 s).1).1
        = [log_file_path t2] ∧
    log_file_path t1 ∉
      fileSinkPaths (setup_logging t2 (setup_logging t1 s).1).1 := by
  refine ⟨rfl, rfl, rfl, ?_⟩
  intro hmem
  have hp : log_file_path t1 = log_file_path t2 := by
    have : fileSinkPaths (setup_logging t2 (setup_logging t1 s).1).1
        = [log_file_path t2] := rfl
    rw [this, List.mem_singleton] at hmem
    exact hmem
  exact h (log_file_path_inj hp)

/-- Witness for C4 at two concrete times one second apart. -/
theorem setup_logging_twice_witness :
    (strftime sampleTime ≠ strftime sampleTime2) ∧
    ((setup_logging sampleTime freshLogging).1.rootHandlers.length = 2 ∧
     (setup_logging sampleTime2 (setup_logging sampleTime freshLogging).1).1.rootHandlers.length = 2 ∧
     fileSinkPaths (setup_logging sampleTime2 (setup_logging sampleTime freshLogging).1).1
        = [log_file_path sampleTime2] ∧
     log_file_path sampleTime ∉
       fileSinkPaths (setup_logging sampleTime2 (setup_logging sampleTime freshLogging).1).1) :=
  ⟨by decide, setup_logging_twice sampleTime sampleTime2 freshLogging (by decide)⟩

theorem run_examples_error (pre : List (String × String)) (name msg : String)
    (post : List (String × Except String String)) :
    run_examples (pre.map (fun p => (p.1, Except.ok p.2)) ++
        (name, Except.error msg) :: post) =
      (pre.map (fun p => ⟨LogLevel.info, "Running " ++ p.1, false⟩) ++
         [⟨LogLevel.info, "Running " ++ name, false⟩],
       pre.map Prod.snd, some msg) := by
  induction pre with
  | nil => simp [run_examples]
  | cons p ps ih => simp [run_examples, ih]

/-- C6: if any example raises, the run logs exactly one ERROR entry,
that entry carries a full trace and contains the exception message, the
exception is re-raised, and only the examples before the failing one
produced artifacts: nothing downstream is created. -/
theorem main_run_error (pre : List (String × String)) (name msg : String)
    (post : List (String × Except String String)) :
    ((main_run (pre.map (fun p => (p.1, Except.ok p.2)) ++
        (name, Except.error msg) :: post)).1.filter
          (fun e => e.level == LogLevel.error)).length = 1 ∧
    (⟨LogLevel.error, "Error in playground: " ++ msg, true⟩ : LogEntry) ∈
      (main_run (pre.map (fun p => (p.1, Except.ok p.2)) ++
        (name, Except.error msg) :: post)).1 ∧
    (main_run (pre.map (fun p => (p.1, Except.ok p.2)) ++
        (name, Except.error msg) :: post)).2.1 = pre.map Prod.snd ∧
    (main_run (pre.map (fun p => (p.1, Except.ok p.2)) ++
        (name, Except.error msg) :: post)).2.2 = Except.error msg := by
  refine ⟨?_, ?_, ?_, ?_⟩ <;>
    simp [main_run, run_examples_error, List.filter_append, List.filter_map,
      Function.comp]

/-- C8: the features artifact written by `track_feature_activations` is
an object with the single key `top_features` holding one entry per pair
returned by the inspection context, in the returned order, each entry an
object with a string `feature` field and a numeric `activation` field;
the file is `<dir>/<name>_<ts>_features.json` and the pairs themselves
are returned. -/
theorem track_feature_activations_content
    (ctx_top : Nat → List (Feature × Rat)) (dir name : String) (t : DateTime) :
    (track_feature_activations ctx_top dir name t).1.path
        = dir ++ "/" ++ ((name ++ "_" ++ strftime t) ++ "_features.json") ∧
    (track_feature_activations ctx_top dir name t).2 = ctx_top 10 ∧
    ∃ entries : List Json,
      (track_feature_activations ctx_top dir name t).1.content
          = FileContent.json (Json.obj [("top_features", Json.arr entries)]) ∧
      entries.length = (ctx_top 10).length ∧
      ∀ i, (hi : i < (ctx_top 10).length) →
        entries[i]? = some (Json.obj
          [("feature", Json.str ((ctx_top 10).get ⟨i, hi⟩).1.reprStr),
           ("activation", Json.num ((ctx_top 10).get ⟨i, hi⟩).2)]) := by
  refine ⟨rfl, rfl, (ctx_top 10).map feature_entry, rfl, by simp, ?_⟩
  intro i hi
  rw [List.getElem?_map, List.getElem?_eq_getElem hi]
  rfl

/-- Witness for C8 on a concrete inspection result. -/
theorem track_feature_activations_content_witness :
    (track_feature_activations sampleTop "output" "basic_chat_features" sampleTime).1.path
        = "output" ++ "/" ++
          (("basic_chat_features" ++ "_" ++ strftime sampleTime) ++ "_features.json") ∧
    (track_feature_activations sampleTop "output" "basic_chat_features" sampleTime).2
        = sampleTop 10 ∧
    ∃ entries : List Json,
      (track_feature_activations sampleTop "output" "basic_chat_features" sampleTime).1.content
          = FileContent.json (Json.obj [("top_features", Json.arr entries)]) ∧
      entries.length = (sampleTop 10).length ∧
      ∀ i, (hi : i < (sampleTop 10).length) →
        entries[i]? = some (Json.obj
          [("feature", Json.str ((sampleTop 10).get ⟨i, hi⟩).1.reprStr),
           ("activation", Json.num ((sampleTop 10).get ⟨i, hi⟩).2)]) :=
  track_feature_activations_content sampleTop "output" "basic_chat_features" sampleTime

/-- C9: with the API key absent from the environment, the module-level
check fails with the descriptive ValueError message and the process
performs no start-up action at all: logging is never initialized and no
client is constructed. -/
theorem missing_api_key_aborts (env : List (String × String))
    (h : getenv env "GOODFIRE_API_KEY" = none) :
    run_program env
        = ([], Except.error "Please set GOODFIRE_API_KEY in your .env file") ∧
    Event.loggingInit ∉ (run_program env).1 ∧
    Event.clientConstruct ∉ (run_program env).1 := by
  have hrp : run_program env
      = ([], Except.error "Please set GOODFIRE_API_KEY in your .env file") := by
    simp [run_program, module_check, h]
  refine ⟨hrp, ?_, ?_⟩ <;> rw [hrp] <;> simp

/-- Witness for C9 on the empty environment. -/
theorem missing_api_key_aborts_witness :
    getenv [] "GOODFIRE_API_KEY" = none ∧
    (run_program []
        = ([], Except.error "Please set GOODFIRE_API_KEY in your .env file") ∧
     Event.loggingInit ∉ (run_program []).1 ∧
     Event.clientConstruct ∉ (run_program []).1) :=
  ⟨rfl, missing_api_key_aborts [] rfl⟩

theorem padDigits_length (w n : Nat) : (padDigits w n).length = w := by
  induction w generalizing n with
  | zero => rfl
  | succ w ih => simp [padDigits, ih]

theorem digitVal_digitChar {d : Nat} (h : d < 10) :
    digitVal (digitChar d) = d := by
  interval_cases d <;> rfl

theorem padDigits_inj_mod : ∀ {w n m : Nat},
    padDigits w n = padDigits w m → n % 10 ^ w = m % 10 ^ w := by
  intro w
  induction w with
  | zero =>
    intro n m _
    simp [Nat.mod_one]
  | succ w ih =>
    intro n m h
    simp only [padDigits, List.cons.injEq] at h
    have hd : n / 10 ^ w % 10 = m / 10 ^ w % 10 := by
      have h10n : n / 10 ^ w % 10 < 10 := Nat.mod_lt _ (by norm_num)
      have h10m : m / 10 ^ w % 10 < 10 := Nat.mod_lt _ (by norm_num)
      have hv := congrArg digitVal h.1
      rwa [digitVal_digitChar h10n, digitVal_digitChar h10m] at hv
    have ht := ih h.2
    rw [pow_succ, Nat.mod_mul, Nat.mod_mul, ht, hd]

theorem padDigits_inj {w n m : Nat} (hn : n < 10 ^ w) (hm : m < 10 ^ w)
    (h : padDigits w n = padDigits w m) : n = m := by
  have hmod := padDigits_inj_mod h
  rwa [Nat.mod_eq_of_lt hn, Nat.mod_eq_of_lt hm] at hmod

theorem strftimeChars_inj {t u : DateTime} (ht : t.valid) (hu : u.valid)
    (h : strftimeChars t = strftimeChars u) : t = u := by
  obtain ⟨hty1, hty2, htm1, htm2, htd1, htd2, hth, htmin, hts⟩ := ht
  obtain ⟨huy1, huy2, hum1, hum2, hud1, hud2, huh, humin, hus⟩ := hu
  have e4 : (10 : Nat) ^ 4 = 10000 := by norm_num
  have e2 : (10 : Nat) ^ 2 = 100 := by norm_num
  simp only [strftimeChars, List.append_assoc] at h
  have h1 := List.append_inj h (by rw [padDigits_length, padDigits_length])
  have hy := padDigits_inj (by rw [e4]; omega) (by rw [e4]; omega) h1.1
  have h2 := List.append_inj h1.2 (by rw [padDigits_length, padDigits_length])
  have hmo := padDigits_inj (by rw [e2]; omega) (by rw [e2]; omega) h2.1
  have h3 := List.append_inj h2.2 (by rw [padDigits_length, padDigits_length])
  have hda := padDigits_inj (by rw [e2]; omega) (by rw [e2]; omega) h3.1
  have h4 := List.append_inj h3.2 rfl
  have h5 := List.append_inj h4.2 (by rw [padDigits_length, padDigits_length])
  have hho := padDigits_inj (by rw [e2]; omega) (by rw [e2]; omega) h5.1
  have h6 := List.append_inj h5.2 (by rw [padDigits_length, padDigits_length])
  have hmi := padDigits_inj (by rw [e2]; omega) (by rw [e2]; omega) h6.1
  have hse := padDigits_inj (by rw [e2]; omega) (by rw [e2]; omega) h6.2
  exact DateTime.ext hy hmo hda hho hmi hse

theorem strftime_inj {t u : DateTime} (ht : t.valid) (hu : u.valid)
    (h : strftime t = strftime u) : t = u :=
  strftimeChars_inj ht hu (congrArg String.data h)

theorem response_path_inj {dir name ts1 ts2 : String}
    (h : response_path dir name ts1 = response_path dir name ts2) :
    ts1 = ts2 := by
  have hd := congrArg String.data h
  simp only [response_path, String.data_append, List.append_assoc] at hd
  have h1 := List.append_cancel_left hd
  have h2 := List.append_cancel_left h1
  have h3 := List.append_cancel_left h2
  have h4 := List.append_cancel_left h3
  exact string_data_inj (List.append_cancel_right h4)

/-- C7: two calls to `save_response` with the same example name return
distinct response paths whenever their timestamps differ in some field
(in particular, when they fall in different seconds), and the same path
when the timestamps agree to the second (so such calls do overwrite). -/
theorem save_response_distinct_paths (dir name r1 r2 : String)
    (t u : DateTime) (m1 m2 : Option Metadata)
    (ht : t.valid) (hu : u.valid) :
    (t ≠ u →
      (save_response dir name r1 t m1).2 ≠ (save_response dir name r2 u m2).2) ∧
    (t = u →
      (save_response dir name r1 t m1).2 = (save_response dir name r2 u m2).2) := by
  constructor
  · intro hne heq
    apply hne
    have hp : response_path dir name (strftime t)
        = response_path dir name (strftime u) := heq
    exact strftime_inj ht hu (response_path_inj hp)
  · intro he
    subst he
    rfl

/-- Witness for C7 at two concrete times one second apart. -/
theorem save_response_distinct_paths_witness :
    sampleTime.valid ∧ sampleTime2.valid ∧
    ((sampleTime ≠ sampleTime2 →
      (save_response "output" "basic_chat" "a" sampleTime none).2 ≠
        (save_response "output" "basic_chat" "b" sampleTime2 none).2) ∧
     (sampleTime = sampleTime2 →
      (save_response "output" "basic_chat" "a" sampleTime none).2 =
        (save_response "output" "basic_chat" "b" sampleTime2 none).2)) :=
  ⟨by decide, by decide,
   save_response_distinct_paths "output" "basic_chat" "a" "b"
    sampleTime sampleTime2 none none (by decide) (by decide)⟩

/-- Witness for C10 at a concrete call. -/
theorem save_response_shared_timestamp_witness :
    (save_response "output" "basic_chat" "hi" sampleTime
        (some [("model", Json.str "m")])).2
        = "output" ++ "/" ++ (("basic_chat" ++ "_" ++ strftime sampleTime) ++ ".txt") ∧
    ∀ w ∈ (save_response "output" "basic_chat" "hi" sampleTime
        (some [("model", Json.str "m")])).1,
      w.path = "output" ++ "/" ++ (("basic_chat" ++ "_" ++ strftime sampleTime) ++ ".txt") ∨
      w.path = "output" ++ "/" ++ (("basic_chat" ++ "_" ++ strftime sampleTime) ++ "_metadata.json") :=
  save_response_shared_timestamp "output" "basic_chat" "hi" sampleTime
    (some [("model", Json.str "m")])

end GoodfireSdk
